import Mathlib

/-
Shallow embedding of the conversation routing and state machine layer of the
agent-test WhatsApp support bot.

Sources embedded here:
  * src/src/agent_test/models.py            (ConversationStatus, Conversation, Message)
  * src/src/agent_test/conversation_manager.py (ConversationManager methods)
  * src/src/agent_test/main.py              (whatsapp_reply router, is_heavy_query
                                             is kept opaque, process_heavy_query_background)

The SQLAlchemy session is modelled as an explicit database value (DB) that is
threaded through every operation.  Row timestamps are modelled by a
monotonically increasing counter assigned at insertion time, which matches the
server-side now() default because rows are only ever appended.  Query results
ordered by primary key or by timestamp therefore correspond to list order.
-/

inductive ConversationStatus where
  | ACTIVE_AI
  | PENDING_HUMAN
  | ACTIVE_HUMAN
  | RESOLVED
deriving DecidableEq, Repr

structure Conversation where
  id : Nat
  whatsapp_number : String
  status : ConversationStatus
  human_agent_id : Option String
deriving DecidableEq, Repr

/-- Message row.  The three media columns come from the alembic migration
5c3d8f9a2b1e (models.py predates it); they are kept as the JSON strings that
save_message receives. -/
structure Message where
  id : Nat
  conversation_id : Nat
  whatsapp_number : String
  message_text : String
  is_from_customer : Bool
  sender_type : String
  timestamp : Nat
  num_media : Nat
  media_urls : Option String
  media_content_types : Option String
deriving DecidableEq, Repr

/-- The database: the conversations and messages tables plus the two
auto-increment counters for primary keys.  Message timestamps equal the
message id, which preserves insertion order. -/
structure DB where
  conversations : List Conversation
  messages : List Message
  nextConvId : Nat
  nextMsgId : Nat
deriving DecidableEq, Repr

/-- Query by primary key: db.query(Conversation).filter(Conversation.id == cid).first(). -/
def findConv (db : DB) (cid : Nat) : Option Conversation :=
  db.conversations.find? (fun c => c.id == cid)

/-- Mutating the ORM object returned by a primary key query and committing
updates the row with that id. -/
def updateConv (db : DB) (cid : Nat) (f : Conversation → Conversation) : DB :=
  { db with conversations := db.conversations.map (fun c => if c.id = cid then f c else c) }

/-- Membership test of conversation_manager.py lines 48-52:
Conversation.status.in_([ACTIVE_AI, PENDING_HUMAN, ACTIVE_HUMAN]). -/
def nonTerminalStatus : ConversationStatus → Bool
  | ConversationStatus.ACTIVE_AI => true
  | ConversationStatus.PENDING_HUMAN => true
  | ConversationStatus.ACTIVE_HUMAN => true
  | ConversationStatus.RESOLVED => false

/-- Row predicate of the query in get_or_create_conversation (lines 46-53). -/
def active_conv_match (whatsapp_number : String) (c : Conversation) : Bool :=
  c.whatsapp_number == whatsapp_number && nonTerminalStatus c.status

/-- ConversationManager.get_or_create_conversation (lines 44-64). -/
def get_or_create_conversation (whatsapp_number : String) (db : DB) : Conversation × DB :=
  match db.conversations.find? (active_conv_match whatsapp_number) with
  | some conversation => (conversation, db)
  | none =>
    let conversation : Conversation :=
      { id := db.nextConvId, whatsapp_number := whatsapp_number,
        status := ConversationStatus.ACTIVE_AI, human_agent_id := none }
    (conversation,
     { db with conversations := db.conversations ++ [conversation],
               nextConvId := db.nextConvId + 1 })

/-- ConversationManager.save_message (lines 66-85).  Note that the source
performs no existence check on conversation_id: the row is inserted
unconditionally (Message.conversation_id carries no foreign key constraint). -/
def save_message (conversation_id : Nat) (whatsapp_number : String)
    (message_text : String) (is_from_customer : Bool) (sender_type : String)
    (db : DB) (num_media : Nat) (media_urls : Option String)
    (media_content_types : Option String) : Message × DB :=
  let message : Message :=
    { id := db.nextMsgId, conversation_id := conversation_id,
      whatsapp_number := whatsapp_number, message_text := message_text,
      is_from_customer := is_from_customer, sender_type := sender_type,
      timestamp := db.nextMsgId, num_media := num_media,
      media_urls := media_urls, media_content_types := media_content_types }
  (message, { db with messages := db.messages ++ [message], nextMsgId := db.nextMsgId + 1 })

/-- ConversationManager.request_human_takeover (lines 94-101). -/
def request_human_takeover (conversation_id : Nat) (db : DB) : Bool × DB :=
  match findConv db conversation_id with
  | some conversation =>
    if conversation.status = ConversationStatus.ACTIVE_AI then
      (true, updateConv db conversation_id
        (fun c => { c with status := ConversationStatus.PENDING_HUMAN }))
    else (false, db)
  | none => (false, db)

/-- ConversationManager.assign_human_agent (lines 103-111). -/
def assign_human_agent (conversation_id : Nat) (agent_id : String) (db : DB) : Bool × DB :=
  match findConv db conversation_id with
  | some conversation =>
    if conversation.status = ConversationStatus.PENDING_HUMAN then
      (true, updateConv db conversation_id
        (fun c => { c with status := ConversationStatus.ACTIVE_HUMAN,
                           human_agent_id := some agent_id }))
    else (false, db)
  | none => (false, db)

/-- ConversationManager.end_conversation (lines 215-222).  The status is set to
RESOLVED for any existing conversation, whatever its current status. -/
def end_conversation (conversation_id : Nat) (db : DB) : Bool × DB :=
  match findConv db conversation_id with
  | some _ =>
    (true, updateConv db conversation_id
      (fun c => { c with status := ConversationStatus.RESOLVED }))
  | none => (false, db)

/-- Shape of one entry of the list built by get_recent_messages_for_context. -/
structure ContextMsg where
  role : String
  content : String
  timestamp : Nat
deriving DecidableEq, Repr

/-- Entry construction of conversation_manager.py lines 144-150. -/
def context_entry (msg : Message) : ContextMsg :=
  { role := if msg.is_from_customer then ("customer") else msg.sender_type,
    content := msg.message_text, timestamp := msg.timestamp }

/-- ConversationManager.get_recent_messages_for_context (lines 133-152):
filter by conversation id, order by timestamp descending, take limit, then
reverse back to chronological order.  Because rows are appended with strictly
increasing timestamps, descending timestamp order is the reverse of list
order. -/
def get_recent_messages_for_context (conversation_id : Nat) (db : DB) (limit : Nat) :
    List ContextMsg :=
  let filtered := db.messages.filter (fun m => m.conversation_id == conversation_id)
  let recent := (filtered.reverse.take limit).reverse
  recent.map context_entry

/-- Keyword list of ConversationManager.__init__ (lines 15-42). -/
def human_takeover_keywords : List String :=
  [ "hablar con humano", "hablar con una persona", "hablar con alguien",
    "quiero hablar con humano", "necesito hablar con persona",
    "quiero hablar con un representante", "necesito ayuda humana",
    "puede transferirme", "puede pasarme", "puede conectarme",
    "puedo hablar con", "puedo hablar con un operador", "puedo hablar con una persona",
    "transferir a humano", "transferir a una persona",
    "contacto humano", "persona real", "agente humano",
    "atención al cliente", "soporte humano", "ayuda humana",
    "hablar con operador", "hablar con un operador",
    "querés transferirme", "podés transferirme", "podés pasarme",
    "podes transferir", "podes pasar", "transferime", "pasame",
    "quiero hablar con vos", "necesito hablar con vos",
    "conectame con", "pasame con", "hablá con",
    "querés conectarme", "necesitás ayudarme",
    "hablar con alguien", "hablar con operador",
    "no entiendo", "esto no funciona", "problema grave",
    "ayuda por favor", "necesito ayuda", "ayuda urgente",
    "un humano", "una persona", "alguien que me ayude",
    "speak to human", "talk to human", "human agent", "transfer to human" ]

/-- Lower-casing of one character, covering the alphabets that appear in the
keyword list and in customer text: ASCII letters plus the Latin-1 uppercase
letters (the range from À to Þ except the multiplication sign), exactly as
Python str.lower maps them. -/
def lowerChar (c : Char) : Char :=
  if 'A' ≤ c ∧ c ≤ 'Z' then Char.ofNat (c.toNat + 32)
  else if ('À' ≤ c ∧ c ≤ 'Þ') ∧ c ≠ '×' then Char.ofNat (c.toNat + 32)
  else c

/-- message_text.lower() of conversation_manager.py line 91. -/
def lowerString (s : String) : String :=
  String.mk (s.data.map lowerChar)

/-- Python substring containment (needle in hay) on character lists. -/
def isSubstr (needle : List Char) : List Char → Bool
  | [] => needle.isEmpty
  | c :: rest => needle.isPrefixOf (c :: rest) || isSubstr needle rest

/-- ConversationManager.should_handover_to_human (lines 87-92).  The falsy
check catches both None and the empty string. -/
def should_handover_to_human (message_text : Option String) : Bool :=
  match message_text with
  | none => false
  | some t =>
    if t.data.isEmpty then false
    else
      let message_lower := lowerString t
      human_takeover_keywords.any (fun keyword => isSubstr keyword.data message_lower.data)

/-- Bounded helper for Python str.replace with empty replacement: removes every
occurrence of pat.  The fuel argument is at least the length of the remaining
list, and each step consumes at least one character, so the fuel never runs
out on the inputs the wrapper supplies. -/
def removeOccAux (pat : List Char) : Nat → List Char → List Char
  | 0, l => l
  | _ + 1, [] => []
  | fuel + 1, c :: rest =>
    if pat.isPrefixOf (c :: rest) then
      removeOccAux pat fuel (rest.drop (pat.length - 1))
    else
      c :: removeOccAux pat fuel rest

/-- From.replace("whatsapp:", "") of main.py line 212, generalised to any
non-empty pattern. -/
def removeOcc (s pat : String) : String :=
  String.mk (removeOccAux pat.data (s.data.length + 1) s.data)

/-- Acknowledgment text of the media branch, main.py lines 262-276: the label
depends on NumMedia and on the first media content type. -/
def media_type_label (numMedia : Nat) (media_urls media_content_types : List String) : String :=
  if media_urls ≠ [] ∧ media_content_types ≠ [] then
    let first_type := lowerString (media_content_types.headD (""))
    if isSubstr ("image".data) first_type.data then
      if numMedia = 1 then ("imagen(es)") else ("imágenes")
    else if isSubstr ("video".data) first_type.data then ("video(s)")
    else if isSubstr ("audio".data) first_type.data then ("audio(s)")
    else if isSubstr ("pdf".data) first_type.data
         || isSubstr ("document".data) first_type.data then ("documento(s)")
    else ("archivo(s)")
  else ("archivo(s)")

/-- Full media acknowledgment message of main.py line 276. -/
def media_ack (numMedia : Nat) (media_urls media_content_types : List String) : String :=
  "Recibí tu " ++ media_type_label numMedia media_urls media_content_types ++
    ". Un agente humano lo revisará y te responderá pronto. Por favor esperá un momento. 🧑‍💼"

/-- Fixed acknowledgment of the PENDING_HUMAN branch, main.py line 289. -/
def pending_ack : String :=
  "Gracias por contactarnos. Un agente humano se comunicará contigo pronto. ⏳"

/-- Fixed acknowledgment of the handover branch, main.py line 295. -/
def handover_ack : String :=
  "Entiendo que querés hablar con una persona. Te estoy conectando con un agente humano. Por favor esperá un momento. 🧑‍💼"

/-- Fixed acknowledgment of the heavy query branch, main.py line 308. -/
def heavy_ack : String :=
  "Estoy buscando toda la información para vos. Te respondo en un momento... ⏳"

/-- json.dumps on a list of strings (main.py lines 234-235); escaping of
special characters inside the strings is elided, no claim inspects it. -/
def json_dumps (l : List String) : String :=
  "[" ++ String.intercalate (", ") (l.map (fun s => "\"" ++ s ++ "\"")) ++ "]"

/-- CONVERSATION_HISTORY_LIMIT, main.py line 73 (environment default 10). -/
def CONVERSATION_HISTORY_LIMIT : Nat := 10

/-- Outcome of one branch of the router before the shared epilogue fields are
attached. -/
structure RouteStep where
  reply : Option String
  db : DB
  aiInvoked : Bool
  heavyQueued : Bool
deriving DecidableEq, Repr

/-- Result of one invocation of the whatsapp_reply handler.  reply = none is
the empty TwiML response (silence); history records the snapshot passed to the
answer path; aiInvoked records a synchronous qa_chain.invoke call;
heavyQueued records background_tasks.add_task. -/
structure RouterResult where
  reply : Option String
  db : DB
  history : List ContextMsg
  aiInvoked : Bool
  heavyQueued : Bool
deriving DecidableEq, Repr

/-- The whatsapp_reply handler of main.py lines 200-334, happy path (the
top-level except clause of lines 336-346 is outside every claim).  The answer
generator qa (qa_chain.invoke composed with str) and the heavy query
classifier is_heavy_query (a fixed set of regular expressions, opaque here
because no claim depends on its contents) are passed as parameters.  Media
attachments arrive as (url, content type) pairs; NumMedia equals their count
and the urls are the non-empty ones Twilio posted, so media_urls lists every
pair. -/
def whatsapp_reply (qa : String → List ContextMsg → String)
    (is_heavy_query : String → Bool) (From : String) (Body : String)
    (media : List (String × String)) (db : DB) : RouterResult :=
  let whatsapp_number := removeOcc From ("whatsapp:")
  let numMedia := media.length
  let media_urls := media.map (fun p => p.1)
  let media_content_types := media.map (fun p => p.2)
  let media_urls_json := if media_urls ≠ [] then some (json_dumps media_urls) else none
  let media_content_types_json :=
    if media_content_types ≠ [] then some (json_dumps media_content_types) else none
  let gc := get_or_create_conversation whatsapp_number db
  let conversation := gc.1
  let db1 := gc.2
  let conversation_history :=
    get_recent_messages_for_context conversation.id db1 CONVERSATION_HISTORY_LIMIT
  let db2 := (save_message conversation.id whatsapp_number Body true ("customer") db1
      numMedia media_urls_json media_content_types_json).2
  let step : RouteStep :=
    if 0 < numMedia then
      let message := media_ack numMedia media_urls media_content_types
      let db3 := (request_human_takeover conversation.id db2).2
      let db4 := (save_message conversation.id whatsapp_number message false ("ai") db3
          0 none none).2
      { reply := some message, db := db4, aiInvoked := false, heavyQueued := false }
    else if conversation.status = ConversationStatus.ACTIVE_HUMAN then
      { reply := none, db := db2, aiInvoked := false, heavyQueued := false }
    else if conversation.status = ConversationStatus.PENDING_HUMAN then
      let message := pending_ack
      let db4 := (save_message conversation.id whatsapp_number message false ("ai") db2
          0 none none).2
      { reply := some message, db := db4, aiInvoked := false, heavyQueued := false }
    else if should_handover_to_human (some Body) then
      let message := handover_ack
      let db3 := (request_human_takeover conversation.id db2).2
      let db4 := (save_message conversation.id whatsapp_number message false ("ai") db3
          0 none none).2
      { reply := some message, db := db4, aiInvoked := false, heavyQueued := false }
    else if is_heavy_query Body then
      let message := heavy_ack
      let db4 := (save_message conversation.id whatsapp_number message false ("ai") db2
          0 none none).2
      { reply := some message, db := db4, aiInvoked := false, heavyQueued := true }
    else
      let message := qa Body conversation_history
      let db4 := (save_message conversation.id whatsapp_number message false ("ai") db2
          0 none none).2
      { reply := some message, db := db4, aiInvoked := true, heavyQueued := false }
  { reply := step.reply, db := step.db, history := conversation_history,
    aiInvoked := step.aiInvoked, heavyQueued := step.heavyQueued }

/-- Fixed apology of the background task fallback, main.py line 164. -/
def heavy_apology_text : String :=
  "⚠️ Disculpá, hubo un problema procesando tu consulta. Por favor intentá de nuevo."

/-- Observable actions of one background task run. -/
inductive TaskEvent where
  | answer_generated (text : String)
  | answer_saved
  | answer_sent (body : String)
  | apology_attempted (body : String)
deriving DecidableEq, Repr

/-- One Twilio messages.create call: succeeds or raises. -/
def twilio_send (ok : Bool) : Except String Unit :=
  if ok then Except.ok () else Except.error ("twilio")

/-- Body of the outer try of process_heavy_query_background (main.py lines
123-155): generate, persist, then send, where the send is wrapped in its own
try/except that logs and swallows a Twilio failure.  Generation and
persistence outcomes are the genResult and saveOk parameters; a raised error
propagates as Except.error. -/
def heavy_task_body (genResult : Except String String) (saveOk : Bool)
    (twilioConfigured : Bool) (sendOk : Bool) : Except String (List TaskEvent) :=
  match genResult with
  | Except.error e => Except.error e
  | Except.ok message =>
    if saveOk then
      if twilioConfigured then
        match twilio_send sendOk with
        | Except.ok _ =>
          Except.ok [TaskEvent.answer_generated message, TaskEvent.answer_saved,
                     TaskEvent.answer_sent message]
        | Except.error _ =>
          Except.ok [TaskEvent.answer_generated message, TaskEvent.answer_saved]
      else
        Except.ok [TaskEvent.answer_generated message, TaskEvent.answer_saved]
    else Except.error ("db")

/-- process_heavy_query_background (main.py lines 111-171): the outer except
clause catches any error from the body, attempts the fixed apology via the
transport directly (no persistence), and its inner bare except swallows a
transport failure there, so the task itself never raises. -/
def process_heavy_query_background (genResult : Except String String) (saveOk : Bool)
    (twilioConfigured : Bool) (sendOk : Bool) (apologyOk : Bool) :
    Except String (List TaskEvent) :=
  match heavy_task_body genResult saveOk twilioConfigured sendOk with
  | Except.ok trace => Except.ok trace
  | Except.error _ =>
    if twilioConfigured then
      match twilio_send apologyOk with
      | Except.ok _ => Except.ok [TaskEvent.apology_attempted heavy_apology_text]
      | Except.error _ => Except.ok [TaskEvent.apology_attempted heavy_apology_text]
    else Except.ok []

/-! Concrete fixtures used by the claim theorems below. -/

def c1db : DB := { conversations := [], messages := [], nextConvId := 0, nextMsgId := 0 }

def c2conv : Conversation :=
  { id := 0, whatsapp_number := "n2", status := ConversationStatus.RESOLVED,
    human_agent_id := none }

def c2db : DB :=
  { conversations := [c2conv], messages := [], nextConvId := 1, nextMsgId := 0 }

def c4conv : Conversation :=
  { id := 0, whatsapp_number := "n4", status := ConversationStatus.PENDING_HUMAN,
    human_agent_id := none }

def c4db : DB :=
  { conversations := [c4conv], messages := [], nextConvId := 1, nextMsgId := 0 }

def c6db : DB := { conversations := [], messages := [], nextConvId := 0, nextMsgId := 0 }

def c3conv : Conversation :=
  { id := 0, whatsapp_number := "c3num", status := ConversationStatus.ACTIVE_HUMAN,
    human_agent_id := some ("maria") }

def c3db : DB :=
  { conversations := [c3conv], messages := [], nextConvId := 1, nextMsgId := 0 }

def c3res : RouterResult :=
  whatsapp_reply (fun _ _ => ("resp")) (fun _ => false) ("c3num") ("mira")
    [("u", "image/jpeg")] c3db

def c5conv : Conversation :=
  { id := 0, whatsapp_number := "c5num", status := ConversationStatus.ACTIVE_AI,
    human_agent_id := none }

def c5m1 : Message :=
  { id := 0, conversation_id := 0, whatsapp_number := "c5num", message_text := "hola",
    is_from_customer := true, sender_type := "customer", timestamp := 0,
    num_media := 0, media_urls := none, media_content_types := none }

def c5m2 : Message :=
  { id := 1, conversation_id := 0, whatsapp_number := "c5num", message_text := "buenas",
    is_from_customer := false, sender_type := "ai", timestamp := 1,
    num_media := 0, media_urls := none, media_content_types := none }

def c5db : DB :=
  { conversations := [c5conv], messages := [c5m1, c5m2], nextConvId := 1, nextMsgId := 2 }

def c7conv : Conversation :=
  { id := 0, whatsapp_number := "c7num", status := ConversationStatus.ACTIVE_AI,
    human_agent_id := none }

def c7db : DB :=
  { conversations := [c7conv], messages := [], nextConvId := 1, nextMsgId := 0 }

/-- Database states reachable from the empty initial state through the four
core conversation operations. -/
inductive Reachable : DB → Prop where
  | init : Reachable { conversations := [], messages := [], nextConvId := 0, nextMsgId := 0 }
  | step_get_or_create (whatsapp_number : String) (db : DB) :
      Reachable db → Reachable (get_or_create_conversation whatsapp_number db).2
  | step_takeover (cid : Nat) (db : DB) :
      Reachable db → Reachable (request_human_takeover cid db).2
  | step_assign (cid : Nat) (agent_id : String) (db : DB) :
      Reachable db → Reachable (assign_human_agent cid agent_id db).2
  | step_end (cid : Nat) (db : DB) :
      Reachable db → Reachable (end_conversation cid db).2

def c10db : DB :=
  (assign_human_agent 0 ("maria")
    ((request_human_takeover 0
      ((get_or_create_conversation ("n10")
        { conversations := [], messages := [], nextConvId := 0, nextMsgId := 0 }).2)).2)).2

/-! Helper lemmas shared by several claims. -/

/-- Updating the rows with a given id through an id-preserving function
commutes with the primary key lookup. -/
theorem find_update_list (cid : Nat) (f : Conversation → Conversation)
    (hf : ∀ c, (f c).id = c.id) (l : List Conversation) :
    (l.map (fun c => if c.id = cid then f c else c)).find? (fun c => c.id == cid)
      = ((l.find? (fun c => c.id == cid)).map
          (fun c => if c.id = cid then f c else c)) := by
  induction l with
  | nil => rfl
  | cons a t ih =>
    by_cases h : a.id = cid
    · have h1 : ((f a).id == cid) = true := by simp [hf, h]
      have h2 : (a.id == cid) = true := by simp [h]
      simp [List.find?_cons, h1, h2, h]
    · have h2 : (a.id == cid) = false := by simp [h]
      simp [List.find?_cons, h2, h, ih]

theorem findConv_updateConv (db : DB) (cid : Nat)
    (f : Conversation → Conversation) (hf : ∀ c, (f c).id = c.id) (c : Conversation)
    (hc : findConv db cid = some c) :
    findConv (updateConv db cid f) cid = some (f c) := by
  have hid : c.id = cid := by
    have := List.find?_some hc
    simpa using this
  unfold findConv updateConv at *
  rw [find_update_list cid f hf db.conversations, hc]
  simp [hid]

theorem save_message_conversations (conversation_id : Nat)
    (whatsapp_number message_text : String) (is_from_customer : Bool)
    (sender_type : String) (db : DB) (num_media : Nat)
    (media_urls media_content_types : Option String) :
    ((save_message conversation_id whatsapp_number message_text is_from_customer
        sender_type db num_media media_urls media_content_types).2).conversations
      = db.conversations := rfl

theorem get_or_create_messages (whatsapp_number : String) (db : DB) :
    ((get_or_create_conversation whatsapp_number db).2).messages = db.messages := by
  unfold get_or_create_conversation
  cases db.conversations.find? (active_conv_match whatsapp_number) <;> rfl

theorem get_recent_eq_of_messages (conversation_id : Nat) (db db2 : DB) (limit : Nat)
    (h : db.messages = db2.messages) :
    get_recent_messages_for_context conversation_id db limit
      = get_recent_messages_for_context conversation_id db2 limit := by
  unfold get_recent_messages_for_context
  rw [h]

/-! Claim C1: save_message and invalid conversation ids. -/

/-- C1 counterexample: on a database with no conversations at all, save_message
called with conversation id 999 does not fail with NotFound: it writes one
message row bearing that id and returns it. -/
theorem c1_counterexample :
    c1db.conversations = [] ∧
    ((save_message 999 ("x") ("hola") true ("customer") c1db 0 none none).2).messages.length = 1 ∧
    ((save_message 999 ("x") ("hola") true ("customer") c1db 0 none none).1).conversation_id
      = 999 :=
  ⟨rfl, rfl, rfl⟩

/-- C1 (amended): save_message writes exactly one new message row and returns
it for every conversation id, whether or not a conversation with that id
exists; it performs no existence check and never fails with NotFound, and it
leaves the conversations table unchanged. -/
theorem save_message_always_writes (conversation_id : Nat)
    (whatsapp_number message_text : String) (is_from_customer : Bool)
    (sender_type : String) (db : DB) (num_media : Nat)
    (media_urls media_content_types : Option String) :
    ((save_message conversation_id whatsapp_number message_text is_from_customer
        sender_type db num_media media_urls media_content_types).2).messages
      = db.messages ++ [(save_message conversation_id whatsapp_number message_text
          is_from_customer sender_type db num_media media_urls media_content_types).1] ∧
    ((save_message conversation_id whatsapp_number message_text is_from_customer
        sender_type db num_media media_urls media_content_types).2).conversations
      = db.conversations ∧
    ((save_message conversation_id whatsapp_number message_text is_from_customer
        sender_type db num_media media_urls media_content_types).1).conversation_id
      = conversation_id :=
  ⟨rfl, rfl, rfl⟩

/-! Claim C2: end_conversation from the RESOLVED state. -/

/-- C2 counterexample: on a conversation already in the terminal RESOLVED
state, end_conversation reports success (returns true), not failure. -/
theorem c2_counterexample :
    (findConv c2db 0).map (fun c => c.status) = some ConversationStatus.RESOLVED ∧
    (end_conversation 0 c2db).1 = true := by
  constructor <;> decide

/-- C2 (amended): end_conversation succeeds for every existing conversation
regardless of its current state, including one already RESOLVED, setting the
status to RESOLVED and reporting success; it reports failure, leaving the
database unchanged, exactly when no conversation with that id exists. -/
theorem end_conversation_spec (cid : Nat) (db : DB) :
    ((end_conversation cid db).1 = true ↔ ∃ c, findConv db cid = some c) ∧
    (∀ c, findConv db cid = some c →
      findConv (end_conversation cid db).2 cid
        = some { c with status := ConversationStatus.RESOLVED }) ∧
    (findConv db cid = none → (end_conversation cid db).2 = db) := by
  refine ⟨?_, ?_, ?_⟩
  · unfold end_conversation
    cases h : findConv db cid <;> simp [h]
  · intro c hc
    have h2 := findConv_updateConv db cid
      (fun x => { x with status := ConversationStatus.RESOLVED }) (fun x => rfl) c hc
    simp only [end_conversation, hc]
    exact h2
  · intro h
    simp [end_conversation, h]

/-- C2 witness: resolving the already resolved conversation of c2db succeeds
and leaves it RESOLVED. -/
theorem end_conversation_spec_witness :
    (end_conversation 0 c2db).1 = true ∧
    findConv (end_conversation 0 c2db).2 0 = some c2conv := by
  constructor
  · exact (end_conversation_spec 0 c2db).1.mpr ⟨c2conv, by decide⟩
  · have h := (end_conversation_spec 0 c2db).2.1 c2conv (by decide)
    simpa [c2conv] using h

/-! Claim C4: assign_human_agent (the claim operation). -/

/-- C4: assign_human_agent succeeds exactly when the conversation exists in
state PENDING_HUMAN, in which case the conversation becomes ACTIVE_HUMAN with
the claiming agent recorded; in every other case it reports failure and the
database (hence the status and the assigned agent id) is unchanged, so a
second agent claiming an already claimed conversation receives failure. -/
theorem assign_human_agent_spec (cid : Nat) (agent_id : String) (db : DB) :
    ((assign_human_agent cid agent_id db).1 = true ↔
      ∃ c, findConv db cid = some c ∧ c.status = ConversationStatus.PENDING_HUMAN) ∧
    (∀ c, findConv db cid = some c → c.status = ConversationStatus.PENDING_HUMAN →
      findConv (assign_human_agent cid agent_id db).2 cid
        = some { c with status := ConversationStatus.ACTIVE_HUMAN,
                        human_agent_id := some agent_id }) ∧
    ((assign_human_agent cid agent_id db).1 = false →
      (assign_human_agent cid agent_id db).2 = db) := by
  refine ⟨?_, ?_, ?_⟩
  · cases h : findConv db cid with
    | none => simp [assign_human_agent, h]
    | some c =>
      by_cases hs : c.status = ConversationStatus.PENDING_HUMAN <;>
        simp [assign_human_agent, h, hs]
  · intro c hc hs
    have h2 := findConv_updateConv db cid
      (fun x => { x with status := ConversationStatus.ACTIVE_HUMAN,
                         human_agent_id := some agent_id }) (fun x => rfl) c hc
    simp only [assign_human_agent, hc, if_pos hs]
    exact h2
  · intro h
    cases hc : findConv db cid with
    | none => simp [assign_human_agent, hc]
    | some c =>
      by_cases hs : c.status = ConversationStatus.PENDING_HUMAN
      · simp [assign_human_agent, hc, hs] at h
      · simp [assign_human_agent, hc, hs]

/-- C4 witness: agent maria claims the pending conversation of c4db and
succeeds; agent juan claiming the same conversation afterwards fails. -/
theorem assign_human_agent_spec_witness :
    (assign_human_agent 0 ("maria") c4db).1 = true ∧
    findConv (assign_human_agent 0 ("maria") c4db).2 0
      = some { c4conv with status := ConversationStatus.ACTIVE_HUMAN,
                           human_agent_id := some ("maria") } ∧
    (assign_human_agent 0 ("juan") ((assign_human_agent 0 ("maria") c4db).2)).1 = false := by
  refine ⟨(assign_human_agent_spec 0 ("maria") c4db).1.mpr ⟨c4conv, by decide, by decide⟩,
    ?_, by decide⟩
  exact (assign_human_agent_spec 0 ("maria") c4db).2.1 c4conv (by decide) (by decide)

/-! Claim C6: get_or_create_conversation is idempotent in sequence. -/

/-- C6: calling get_or_create_conversation twice in sequence for the same
address returns the same conversation (and the second call changes nothing);
when no non-terminal conversation exists for the address, the first call
creates one in the initial ACTIVE_AI state with a fresh id. -/
theorem get_or_create_idempotent (whatsapp_number : String) (db : DB) :
    ((get_or_create_conversation whatsapp_number
        ((get_or_create_conversation whatsapp_number db).2)).1
      = (get_or_create_conversation whatsapp_number db).1 ∧
     (get_or_create_conversation whatsapp_number
        ((get_or_create_conversation whatsapp_number db).2)).2
      = (get_or_create_conversation whatsapp_number db).2) ∧
    (db.conversations.find? (active_conv_match whatsapp_number) = none →
      (get_or_create_conversation whatsapp_number db).1.status
        = ConversationStatus.ACTIVE_AI ∧
      (get_or_create_conversation whatsapp_number db).1.id = db.nextConvId ∧
      ((get_or_create_conversation whatsapp_number db).2).conversations
        = db.conversations ++ [(get_or_create_conversation whatsapp_number db).1]) := by
  constructor
  · cases h : db.conversations.find? (active_conv_match whatsapp_number) with
    | some c =>
      constructor <;> simp [get_or_create_conversation, h]
    | none =>
      have hmatch : active_conv_match whatsapp_number
          { id := db.nextConvId, whatsapp_number := whatsapp_number,
            status := ConversationStatus.ACTIVE_AI, human_agent_id := none } = true := by
        simp [active_conv_match, nonTerminalStatus]
      constructor <;>
        simp [get_or_create_conversation, h, List.find?_append, hmatch]
  · intro hnone
    refine ⟨?_, ?_, ?_⟩ <;> simp [get_or_create_conversation, hnone]

/-- C6 witness: on the empty database, the second get-or-create for address a
returns the conversation the first call created, and that conversation starts
in ACTIVE_AI. -/
theorem get_or_create_idempotent_witness :
    (get_or_create_conversation ("a")
        ((get_or_create_conversation ("a") c6db).2)).1
      = (get_or_create_conversation ("a") c6db).1 ∧
    (get_or_create_conversation ("a") c6db).1.status = ConversationStatus.ACTIVE_AI := by
  have h := get_or_create_idempotent ("a") c6db
  exact ⟨h.1.1, (h.2 (by decide)).1⟩

/-! Claim C8: the handover classifier. -/

/-- C8: should_handover_to_human returns false for a missing or empty text;
for non-empty text it returns true exactly when some phrase of the fixed
keyword list is a substring of the lower-cased input; on the three quoted
inputs it returns true, false and false respectively. -/
theorem should_handover_spec :
    should_handover_to_human none = false ∧
    should_handover_to_human (some ("")) = false ∧
    (∀ t : String, t.data ≠ [] →
      (should_handover_to_human (some t) = true ↔
        ∃ k ∈ human_takeover_keywords, isSubstr k.data (lowerString t).data = true)) ∧
    should_handover_to_human (some ("quiero hablar con una persona")) = true ∧
    should_handover_to_human (some ("cuanto cuesta?")) = false := by
  refine ⟨rfl, rfl, ?_, by decide, by decide⟩
  intro t ht
  have hne : t.data.isEmpty = false := by
    cases hd : t.data with
    | nil => exact absurd hd ht
    | cons a l => rfl
  simp [should_handover_to_human, hne, List.any_eq_true]

/-- C8 witness: the iff instantiated at the first quoted input. -/
theorem should_handover_spec_witness :
    should_handover_to_human (some ("quiero hablar con una persona")) = true ↔
      ∃ k ∈ human_takeover_keywords,
        isSubstr k.data (lowerString ("quiero hablar con una persona")).data = true :=
  should_handover_spec.2.2.1 ("quiero hablar con una persona") (by decide)

/-! Claim C9: the background heavy query task never raises. -/

/-- C9: for every combination of generation outcome, persistence outcome,
transport outcome and fallback transport outcome, the background task
terminates normally (Except.ok, it never raises); whenever generation or
persistence failed and the transport is configured, the run attempts the
fixed apology directly via the transport without persisting anything, and a
transport failure during that fallback is swallowed (the run is still ok). -/
theorem heavy_task_never_raises (genResult : Except String String)
    (saveOk twilioConfigured sendOk apologyOk : Bool) :
    (∃ trace, process_heavy_query_background genResult saveOk twilioConfigured
        sendOk apologyOk = Except.ok trace) ∧
    ((genResult.isOk = false ∨ saveOk = false) → twilioConfigured = true →
      ∃ trace, process_heavy_query_background genResult saveOk twilioConfigured
          sendOk apologyOk = Except.ok trace ∧
        TaskEvent.apology_attempted heavy_apology_text ∈ trace ∧
        TaskEvent.answer_saved ∉ trace) := by
  cases genResult <;> cases saveOk <;> cases twilioConfigured <;> cases sendOk <;>
    cases apologyOk <;>
    simp [process_heavy_query_background, heavy_task_body, twilio_send, Except.isOk,
      Except.toBool]

/-- C9 witness: a run whose answer generation raised, with the transport
configured, ends in Except.ok with the apology attempted and nothing saved. -/
theorem heavy_task_never_raises_witness :
    ∃ trace, process_heavy_query_background (Except.error ("boom")) true true true true
        = Except.ok trace ∧
      TaskEvent.apology_attempted heavy_apology_text ∈ trace ∧
      TaskEvent.answer_saved ∉ trace :=
  (heavy_task_never_raises (Except.error ("boom")) true true true true).2
    (Or.inl (by decide)) rfl

theorem findConv_eq_of_conversations (db db2 : DB) (cid : Nat)
    (h : db.conversations = db2.conversations) : findConv db cid = findConv db2 cid := by
  unfold findConv
  rw [h]

/-- save_message only appends to the messages table, so conversation lookups
pass through it unchanged. -/
theorem findConv_save_message (conversation_id : Nat)
    (whatsapp_number message_text : String) (is_from_customer : Bool)
    (sender_type : String) (db : DB) (num_media : Nat)
    (media_urls media_content_types : Option String) (cid : Nat) :
    findConv ((save_message conversation_id whatsapp_number message_text
        is_from_customer sender_type db num_media media_urls
        media_content_types).2) cid
      = findConv db cid := rfl

/-- request_human_takeover moves a conversation found in ACTIVE_AI or already
in PENDING_HUMAN to PENDING_HUMAN. -/
theorem takeover_status (cid : Nat) (db : DB) (c : Conversation)
    (hc : findConv db cid = some c)
    (hs : c.status = ConversationStatus.ACTIVE_AI ∨
      c.status = ConversationStatus.PENDING_HUMAN) :
    (findConv (request_human_takeover cid db).2 cid).map (fun x => x.status)
      = some ConversationStatus.PENDING_HUMAN := by
  cases hs with
  | inl hAI =>
    simp only [request_human_takeover, hc, if_pos hAI]
    rw [findConv_updateConv db cid
      (fun x => { x with status := ConversationStatus.PENDING_HUMAN })
      (fun x => rfl) c hc]
    rfl
  | inr hPH =>
    have hne : ¬ (c.status = ConversationStatus.ACTIVE_AI) := by simp [hPH]
    simp only [request_human_takeover, hc, if_neg hne]
    simp [hc, hPH]

/-! Claim C3: messages arriving while a human is actively engaged. -/

/-- C3 counterexample: an inbound message carrying a media attachment while the
conversation is ACTIVE_HUMAN is not met with silence: the media branch runs
first, so a reply is returned and an outbound ai row is persisted after the
customer row. -/
theorem c3_counterexample :
    (findConv c3db 0).map (fun c => c.status) = some ConversationStatus.ACTIVE_HUMAN ∧
    c3res.reply.isSome = true ∧
    c3res.db.messages.map (fun m => m.sender_type) = [("customer"), ("ai")] := by
  refine ⟨by decide, by decide, by decide⟩

/-- C3 (amended): for every inbound message without media attachments arriving
while its conversation is ACTIVE_HUMAN, the router is silent: no reply text is
returned, the answer generator is not invoked, and exactly one row — the
customer message — is persisted (no outbound row). -/
theorem active_human_silent (qa : String → List ContextMsg → String)
    (is_heavy_query : String → Bool) (From Body : String) (db : DB)
    (h : (get_or_create_conversation (removeOcc From ("whatsapp:")) db).1.status
      = ConversationStatus.ACTIVE_HUMAN) :
    (whatsapp_reply qa is_heavy_query From Body [] db).reply = none ∧
    (whatsapp_reply qa is_heavy_query From Body [] db).aiInvoked = false ∧
    ∃ m : Message,
      (whatsapp_reply qa is_heavy_query From Body [] db).db.messages
        = db.messages ++ [m] ∧
      m.is_from_customer = true ∧ m.sender_type = "customer" ∧ m.message_text = Body := by
  have hmsgs := get_or_create_messages (removeOcc From ("whatsapp:")) db
  simp only [whatsapp_reply, List.length_nil, Nat.lt_irrefl, if_false, h, if_pos,
    List.map_nil, save_message]
  refine ⟨trivial, trivial, ?_⟩
  rw [hmsgs]
  exact ⟨_, rfl, rfl, rfl, rfl⟩

/-- C3 witness: on the ACTIVE_HUMAN conversation of c3db, a plain text message
without media yields no reply. -/
theorem active_human_silent_witness :
    (whatsapp_reply (fun _ _ => ("x")) (fun _ => false) ("c3num") ("hola") [] c3db).reply
      = none :=
  (active_human_silent (fun _ _ => ("x")) (fun _ => false) ("c3num") ("hola") c3db
    (by decide)).1

/-! Claim C5: the history snapshot never contains the current message. -/

/-- C5: the history handed to the answer path by the router equals the recent
context computed on the database as it was BEFORE the inbound message was
persisted, so the current message is never part of its own context; in
particular when the conversation has exactly the stored messages m1 and m2,
the fetched history is exactly their two context entries. -/
theorem history_excludes_current (qa : String → List ContextMsg → String)
    (is_heavy_query : String → Bool) (From Body : String)
    (media : List (String × String)) (db : DB) :
    (whatsapp_reply qa is_heavy_query From Body media db).history
      = get_recent_messages_for_context
          (get_or_create_conversation (removeOcc From ("whatsapp:")) db).1.id db
          CONVERSATION_HISTORY_LIMIT ∧
    (∀ m1 m2 : Message,
      db.messages.filter (fun m => m.conversation_id
          == (get_or_create_conversation (removeOcc From ("whatsapp:")) db).1.id)
        = [m1, m2] →
      (whatsapp_reply qa is_heavy_query From Body media db).history
        = [context_entry m1, context_entry m2]) := by
  have hbase : (whatsapp_reply qa is_heavy_query From Body media db).history
      = get_recent_messages_for_context
          (get_or_create_conversation (removeOcc From ("whatsapp:")) db).1.id db
          CONVERSATION_HISTORY_LIMIT :=
    get_recent_eq_of_messages _ _ _ _
      (get_or_create_messages (removeOcc From ("whatsapp:")) db)
  refine ⟨hbase, ?_⟩
  intro m1 m2 hf
  rw [hbase]
  simp only [get_recent_messages_for_context, hf]
  rfl

/-- C5 witness: with exactly m1 and m2 stored, handling a third inbound
message fetches history = the entries of m1 and m2 only. -/
theorem history_excludes_current_witness :
    (whatsapp_reply (fun _ _ => ("x")) (fun _ => false) ("c5num") ("como va") []
        c5db).history
      = [context_entry c5m1, context_entry c5m2] :=
  (history_excludes_current (fun _ _ => ("x")) (fun _ => false) ("c5num") ("como va")
    [] c5db).2 c5m1 c5m2 (by decide)

/-! Claim C7: media attachments escalate to PENDING_HUMAN. -/

/-- C7: an inbound message with a non-empty media attachment list, on a
conversation currently ACTIVE_AI or PENDING_HUMAN, leaves the conversation in
PENDING_HUMAN (idempotently), returns the media acknowledgment built by the
media branch, and never invokes the answer generator. -/
theorem media_escalation_spec (qa : String → List ContextMsg → String)
    (is_heavy_query : String → Bool) (From Body : String)
    (media : List (String × String)) (db : DB)
    (hm : media ≠ [])
    (hs : (get_or_create_conversation (removeOcc From ("whatsapp:")) db).1.status
        = ConversationStatus.ACTIVE_AI ∨
      (get_or_create_conversation (removeOcc From ("whatsapp:")) db).1.status
        = ConversationStatus.PENDING_HUMAN)
    (hfind : findConv (get_or_create_conversation (removeOcc From ("whatsapp:")) db).2
        (get_or_create_conversation (removeOcc From ("whatsapp:")) db).1.id
      = some (get_or_create_conversation (removeOcc From ("whatsapp:")) db).1) :
    (findConv (whatsapp_reply qa is_heavy_query From Body media db).db
        (get_or_create_conversation (removeOcc From ("whatsapp:")) db).1.id).map
        (fun c => c.status)
      = some ConversationStatus.PENDING_HUMAN ∧
    (whatsapp_reply qa is_heavy_query From Body media db).reply
      = some (media_ack media.length (media.map (fun p => p.1))
          (media.map (fun p => p.2))) ∧
    (whatsapp_reply qa is_heavy_query From Body media db).aiInvoked = false := by
  have hlen : 0 < media.length := List.length_pos.mpr hm
  simp only [whatsapp_reply, if_pos hlen, findConv_save_message]
  refine ⟨?_, trivial, trivial⟩
  apply takeover_status
  · rw [findConv_save_message]
    exact hfind
  · exact hs

/-- C7 witness: an image attachment on the ACTIVE_AI conversation of c7db
leaves it PENDING_HUMAN. -/
theorem media_escalation_spec_witness :
    (findConv (whatsapp_reply (fun _ _ => ("x")) (fun _ => false) ("c7num") ("mira")
          [("u", "image/jpeg")] c7db).db 0).map (fun c => c.status)
      = some ConversationStatus.PENDING_HUMAN := by
  have h := media_escalation_spec (fun _ _ => ("x")) (fun _ => false) ("c7num") ("mira")
    [("u", "image/jpeg")] c7db (by decide) (Or.inl (by decide)) (by decide)
  exact h.1

/-! Claim C10: ACTIVE_HUMAN conversations always carry an assigned agent. -/

/-- Rows of an updated table satisfy P when the untouched rows did and the
rewritten image of every row does. -/
theorem updateConv_forall (P : Conversation → Prop) (db : DB) (cid : Nat)
    (f : Conversation → Conversation)
    (hP : ∀ c ∈ db.conversations, P c)
    (hf : ∀ c ∈ db.conversations, P (f c)) :
    ∀ c ∈ (updateConv db cid f).conversations, P c := by
  intro c hc
  simp only [updateConv, List.mem_map] at hc
  obtain ⟨x, hx, hcx⟩ := hc
  subst hcx
  by_cases h : x.id = cid
  · rw [if_pos h]
    exact hf x hx
  · rw [if_neg h]
    exact hP x hx

/-- C10: in every database state reachable from conversation creation through
the four core operations, a conversation in state ACTIVE_HUMAN has a non-null
assigned agent id: only assign_human_agent produces the ACTIVE_HUMAN status,
it always records the claiming agent, and no operation clears the field. -/
theorem active_human_has_agent (db : DB) (hr : Reachable db) :
    ∀ c ∈ db.conversations, c.status = ConversationStatus.ACTIVE_HUMAN →
      c.human_agent_id ≠ none := by
  induction hr with
  | init =>
    intro c hc
    simp at hc
  | step_get_or_create n db0 hr0 ih =>
    intro c hc
    cases hfind : db0.conversations.find? (active_conv_match n) with
    | some c0 =>
      simp only [get_or_create_conversation, hfind] at hc
      exact ih c hc
    | none =>
      simp only [get_or_create_conversation, hfind, List.mem_append] at hc
      cases hc with
      | inl h1 => exact ih c h1
      | inr h1 =>
        intro hstat
        simp at h1
        subst h1
        simp at hstat
  | step_takeover cid db0 hr0 ih =>
    intro c hc
    cases hfind : findConv db0 cid with
    | none =>
      simp only [request_human_takeover, hfind] at hc
      exact ih c hc
    | some c0 =>
      by_cases hs : c0.status = ConversationStatus.ACTIVE_AI
      · simp only [request_human_takeover, hfind, if_pos hs] at hc
        refine updateConv_forall
          (fun x => x.status = ConversationStatus.ACTIVE_HUMAN → x.human_agent_id ≠ none)
          db0 cid _ ih ?_ c hc
        intro x hx hax
        simp at hax
      · simp only [request_human_takeover, hfind, if_neg hs] at hc
        exact ih c hc
  | step_assign cid aid db0 hr0 ih =>
    intro c hc
    cases hfind : findConv db0 cid with
    | none =>
      simp only [assign_human_agent, hfind] at hc
      exact ih c hc
    | some c0 =>
      by_cases hs : c0.status = ConversationStatus.PENDING_HUMAN
      · simp only [assign_human_agent, hfind, if_pos hs] at hc
        refine updateConv_forall
          (fun x => x.status = ConversationStatus.ACTIVE_HUMAN → x.human_agent_id ≠ none)
          db0 cid _ ih ?_ c hc
        intro x hx hax
        simp
      · simp only [assign_human_agent, hfind, if_neg hs] at hc
        exact ih c hc
  | step_end cid db0 hr0 ih =>
    intro c hc
    cases hfind : findConv db0 cid with
    | none =>
      simp only [end_conversation, hfind] at hc
      exact ih c hc
    | some c0 =>
      simp only [end_conversation, hfind] at hc
      refine updateConv_forall
        (fun x => x.status = ConversationStatus.ACTIVE_HUMAN → x.human_agent_id ≠ none)
        db0 cid _ ih ?_ c hc
      intro x hx hax
      simp at hax

/-- C10 witness: the reachable state where n10 was created, escalated and
claimed by maria contains an ACTIVE_HUMAN conversation whose assigned agent is
not null. -/
theorem active_human_has_agent_witness :
    ∃ c, findConv c10db 0 = some c ∧ c.status = ConversationStatus.ACTIVE_HUMAN ∧
      c.human_agent_id ≠ none := by
  have hreach : Reachable c10db :=
    Reachable.step_assign 0 ("maria") _
      (Reachable.step_takeover 0 _
        (Reachable.step_get_or_create ("n10") _ Reachable.init))
  refine ⟨{ id := 0, whatsapp_number := "n10", status := ConversationStatus.ACTIVE_HUMAN,
            human_agent_id := some ("maria") }, by decide, rfl, ?_⟩
  exact active_human_has_agent c10db hreach _ (by decide) rfl
